import Mathlib

/-
Verification of the TftBridge serial relay (tftbridge.py).

The model is a shallow embedding of the Python class TftBridge: the mutable
instance fields become a state record, each event handler and each single
iteration of a relay-loop body becomes a pure function from the state and an
oracle describing the serial devices' behaviour on that step to the new state
together with a trace of externally visible actions.
-/

namespace TftBridge

/-- A Python runtime value that is either a text string or a bytes object.
The distinction matters: readline on a pyserial port returns bytes, while the
exception handler in each relay loop assigns the text string "" to line, and
Python equality between a bytes object and a text string is always false. -/
inductive PyVal where
  | str (s : String)
  | bytes (b : List Nat)
deriving DecidableEq

/-- Python equality test between two values: values of different runtime
types (bytes versus str) always compare unequal. -/
def pyEq : PyVal → PyVal → Bool
  | PyVal.str a, PyVal.str b => a == b
  | PyVal.bytes a, PyVal.bytes b => a == b
  | _, _ => false

/-- An open pyserial handle, as produced by the serial.Serial constructor:
a timeout of none means reads block indefinitely. -/
structure SerialPort where
  device : String
  baud : Nat
  timeout : Option Nat
deriving DecidableEq

/-- The two serial devices the bridge connects. -/
inductive Device where
  | tft
  | klipper
deriving DecidableEq

/-- The two relay-loop directions started by handle_ready. -/
inductive Direction where
  | tft2klipper
  | klipper2tft
deriving DecidableEq

/-- The mutable state of a TftBridge instance: the six configuration fields
read in the constructor, the two optional serial handles, and the
threading.Event used as the stop flag. -/
structure BridgeState where
  tft_device : String
  tft_baud : Nat
  tft_timeout : Nat
  klipper_device : String
  klipper_baud : Nat
  klipper_timeout : Nat
  tft_serial : Option SerialPort
  klipper_serial : Option SerialPort
  stop_event : Bool
deriving DecidableEq

/-- An externally visible action performed by a relay-loop iteration:
closing a device, invoking write on a device with some data, or printing a
log message. -/
inductive Effect where
  | close (d : Device)
  | writeCall (d : Device) (data : PyVal)
  | log (msg : String)
deriving DecidableEq

/-- Outcome of the readline call on the source device in one iteration:
either it returns a bytes object (empty on a timeout) or it raises. -/
inductive ReadResult where
  | ok (b : List Nat)
  | err (msg : String)
deriving DecidableEq

/-- Outcome of the write call on the destination device: success or raise. -/
inductive WriteResult where
  | ok
  | err (msg : String)
deriving DecidableEq

/-- Outcome of a serial.Serial constructor call inside open_device:
success or raise. -/
inductive OpenOutcome where
  | ok
  | err (msg : String)
deriving DecidableEq

/-- A step recorded while handle_ready runs, in execution order. -/
inductive ReadyStep where
  | openAttempt (d : Device)
  | logStep (msg : String)
  | clearStop
  | startThread (dir : Direction)
deriving DecidableEq

/-- TftBridge.open_device: opens the serial port at the given path and baud
rate; when the configured timeout is 0 the timeout argument is omitted so the
port has no read timeout (pyserial then blocks indefinitely), otherwise the
timeout is passed through. -/
def open_device (device : String) (baud : Nat) (timeout : Nat) : SerialPort :=
  if timeout = 0 then
    { device := device, baud := baud, timeout := none }
  else
    { device := device, baud := baud, timeout := some timeout }

/-- TftBridge.handle_ready: if the tft handle is None, attempt to open it
(an exception is caught, logged, and the handle set to None); likewise for
the klipper handle; then clear the stop event and start one thread per
relay direction. The two OpenOutcome arguments say whether each
serial.Serial constructor call, if reached, succeeds or raises. Returns the
new state and the ordered trace of steps performed. -/
def handle_ready (s : BridgeState) (tftOpen klipperOpen : OpenOutcome) :
    BridgeState × List ReadyStep :=
  let p1 :=
    if s.tft_serial = none then
      match tftOpen with
      | OpenOutcome.ok =>
          let c := open_device s.tft_device s.tft_baud s.tft_timeout
          ({ s with tft_serial := some c }, [ReadyStep.openAttempt Device.tft])
      | OpenOutcome.err m =>
          ({ s with tft_serial := none },
           [ReadyStep.openAttempt Device.tft,
            ReadyStep.logStep ("Failed to establish tft connection: " ++ m)])
    else (s, [])
  let s1 := p1.1
  let p2 :=
    if s1.klipper_serial = none then
      match klipperOpen with
      | OpenOutcome.ok =>
          let c := open_device s1.klipper_device s1.klipper_baud s1.klipper_timeout
          ({ s1 with klipper_serial := some c }, [ReadyStep.openAttempt Device.klipper])
      | OpenOutcome.err m =>
          ({ s1 with klipper_serial := none },
           [ReadyStep.openAttempt Device.klipper,
            ReadyStep.logStep ("Failed to establish klipper connection: " ++ m)])
    else (s1, [])
  ({ p2.1 with stop_event := false },
   p1.2 ++ p2.2 ++
     [ReadyStep.clearStop,
      ReadyStep.startThread Direction.tft2klipper,
      ReadyStep.startThread Direction.klipper2tft])

/-- One iteration of the while-True body of TftBridge.tft2klipper. The
ReadResult and WriteResult arguments describe what the devices do if the
corresponding call is reached. Returns the new state, the trace of actions
the iteration performed, and whether the body executed break. -/
def tft2klipper_iter (s : BridgeState) (r : ReadResult) (w : WriteResult) :
    BridgeState × List Effect × Bool :=
  if s.stop_event then
    ({ s with tft_serial := none },
     if s.tft_serial.isSome then [Effect.close Device.tft] else [],
     true)
  else if s.tft_serial.isSome && s.klipper_serial.isSome then
    let p :=
      match r with
      | ReadResult.ok b => (PyVal.bytes b, ([] : List Effect))
      | ReadResult.err m =>
          (PyVal.str "", [Effect.log ("Failed to read from tft " ++ m)])
    if pyEq p.1 (PyVal.str "") then (s, p.2, false)
    else
      match w with
      | WriteResult.ok =>
          (s, p.2 ++ [Effect.writeCall Device.klipper p.1], false)
      | WriteResult.err m =>
          (s, p.2 ++ [Effect.writeCall Device.klipper p.1,
                      Effect.log ("Failed to write to klipper " ++ m)], false)
  else (s, [], false)

/-- One iteration of the while-True body of TftBridge.klipper2tft, symmetric
to tft2klipper_iter: reads from the klipper handle, writes to the tft
handle, and on shutdown closes and clears the klipper handle. -/
def klipper2tft_iter (s : BridgeState) (r : ReadResult) (w : WriteResult) :
    BridgeState × List Effect × Bool :=
  if s.stop_event then
    ({ s with klipper_serial := none },
     if s.klipper_serial.isSome then [Effect.close Device.klipper] else [],
     true)
  else if s.tft_serial.isSome && s.klipper_serial.isSome then
    let p :=
      match r with
      | ReadResult.ok b => (PyVal.bytes b, ([] : List Effect))
      | ReadResult.err m =>
          (PyVal.str "", [Effect.log ("Failed to read from klipper " ++ m)])
    if pyEq p.1 (PyVal.str "") then (s, p.2, false)
    else
      match w with
      | WriteResult.ok =>
          (s, p.2 ++ [Effect.writeCall Device.tft p.1], false)
      | WriteResult.err m =>
          (s, p.2 ++ [Effect.writeCall Device.tft p.1,
                      Effect.log ("Failed to write to tft " ++ m)], false)
  else (s, [], false)

/-- TftBridge.handle_disconnect: sets the stop event and nothing else. -/
def handle_disconnect (s : BridgeState) : BridgeState :=
  { s with stop_event := true }

/-- The write actions contained in a trace, in order. -/
def writesOf (es : List Effect) : List Effect :=
  es.filter fun e =>
    match e with
    | Effect.writeCall _ _ => true
    | _ => false

/-- Is a ready step a thread start? -/
def isStart (st : ReadyStep) : Bool :=
  match st with
  | ReadyStep.startThread _ => true
  | _ => false

/-- Is a ready step an open attempt? -/
def isOpenAttempt (st : ReadyStep) : Bool :=
  match st with
  | ReadyStep.openAttempt _ => true
  | _ => false

/-- Is a ready step a step that can occur in the opening phase of
handle_ready, that is, an open attempt or a log message? -/
def isPreStep (st : ReadyStep) : Bool :=
  match st with
  | ReadyStep.openAttempt _ => true
  | ReadyStep.logStep _ => true
  | _ => false

/-- Is a ready step an open attempt on the given device? -/
def isOpenAttemptOn (d : Device) (st : ReadyStep) : Bool :=
  match d, st with
  | Device.tft, ReadyStep.openAttempt Device.tft => true
  | Device.klipper, ReadyStep.openAttempt Device.klipper => true
  | _, _ => false

/-- A concrete bridge state in the Running configuration: both handles
present, stop event clear. -/
def sampleRunning : BridgeState :=
  { tft_device := "/dev/ttyS1"
    tft_baud := 115200
    tft_timeout := 1
    klipper_device := "/dev/ttyS2"
    klipper_baud := 250000
    klipper_timeout := 1
    tft_serial := some (open_device "/dev/ttyS1" 115200 1)
    klipper_serial := some (open_device "/dev/ttyS2" 250000 1)
    stop_event := false }

/-- A concrete bridge state in the Stopped configuration: both handles
absent, stop event set. -/
def sampleStopped : BridgeState :=
  { tft_device := "/dev/ttyS1"
    tft_baud := 115200
    tft_timeout := 1
    klipper_device := "/dev/ttyS2"
    klipper_baud := 250000
    klipper_timeout := 1
    tft_serial := none
    klipper_serial := none
    stop_event := true }

/-- C7: for every device path, baud rate and timeout, open_device opens the
device at that path with that baud rate and applies a read timeout of the
given number of seconds, except that a timeout of 0 opens the device with no
read timeout (reads block indefinitely). -/
theorem open_device_applies_config (d : String) (b t : Nat) :
    (open_device d b t).device = d ∧
    (open_device d b t).baud = b ∧
    (open_device d b t).timeout = (if t = 0 then none else some t) := by
  unfold open_device
  by_cases h : t = 0 <;> simp [h]

/-- C10: handle_disconnect only sets the stop event; both serial handles and
all six configuration fields are unchanged, it performs no close, and it is a
total function of the state (it returns without error in every state). -/
theorem handle_disconnect_only_sets_flag (s : BridgeState) :
    (handle_disconnect s).stop_event = true ∧
    (handle_disconnect s).tft_serial = s.tft_serial ∧
    (handle_disconnect s).klipper_serial = s.klipper_serial ∧
    (handle_disconnect s).tft_device = s.tft_device ∧
    (handle_disconnect s).tft_baud = s.tft_baud ∧
    (handle_disconnect s).tft_timeout = s.tft_timeout ∧
    (handle_disconnect s).klipper_device = s.klipper_device ∧
    (handle_disconnect s).klipper_baud = s.klipper_baud ∧
    (handle_disconnect s).klipper_timeout = s.klipper_timeout := by
  simp [handle_disconnect]

/-- C2, evaluated at the failing input: with both handles present and the
stop event clear, an iteration whose readline times out (returning the empty
bytes object) does invoke write on the destination with the empty record, in
both directions. The guard compares the bytes result of readline against the
text string "", and in Python a bytes object is never equal to a str, so the
empty-record filter never fires and the claimed no-write behaviour does not
hold. The loop does continue (break is false), as the claim states. -/
theorem timeout_iteration_writes_empty_record :
    tft2klipper_iter sampleRunning (ReadResult.ok []) WriteResult.ok =
      (sampleRunning, [Effect.writeCall Device.klipper (PyVal.bytes [])], false) ∧
    klipper2tft_iter sampleRunning (ReadResult.ok []) WriteResult.ok =
      (sampleRunning, [Effect.writeCall Device.tft (PyVal.bytes [])], false) := by
  constructor <;> rfl

/-- C9: in every relay-loop iteration where either handle is absent and the
stop event is clear, both loop bodies perform no action at all (no read, no
write, no close, no log), leave the state unchanged, and do not break, so
the loop returns straight to polling. -/
theorem absent_handle_idles (s : BridgeState) (r : ReadResult) (w : WriteResult)
    (hstop : s.stop_event = false)
    (habs : s.tft_serial = none ∨ s.klipper_serial = none) :
    tft2klipper_iter s r w = (s, [], false) ∧
    klipper2tft_iter s r w = (s, [], false) := by
  have hcond : (s.tft_serial.isSome && s.klipper_serial.isSome) = false := by
    cases habs with
    | inl h => simp [h]
    | inr h => simp [h]
  unfold tft2klipper_iter klipper2tft_iter
  simp [hstop, hcond]

/-- A concrete instance of absent_handle_idles: in the sample Running state
with the tft handle removed, both loop iterations are no-ops. -/
theorem absent_handle_idles_witness :
    tft2klipper_iter { sampleRunning with tft_serial := none }
        (ReadResult.ok [71, 10]) WriteResult.ok =
      ({ sampleRunning with tft_serial := none }, [], false) ∧
    klipper2tft_iter { sampleRunning with tft_serial := none }
        (ReadResult.ok [71, 10]) WriteResult.ok =
      ({ sampleRunning with tft_serial := none }, [], false) :=
  absent_handle_idles { sampleRunning with tft_serial := none }
    (ReadResult.ok [71, 10]) WriteResult.ok rfl (Or.inl rfl)

/-- C1: with both handles present and the stop event clear, an iteration
that successfully reads a non-empty newline-terminated record from its
source performs exactly one write, to the destination device, carrying
exactly the bytes read (terminator included), leaves the state unchanged,
and does not break; this holds for both directions and for any write
outcome. -/
theorem relay_writes_record_verbatim (s : BridgeState) (b : List Nat)
    (w : WriteResult)
    (_hb : b ≠ []) (_hnl : b.getLast? = some 10)
    (hstop : s.stop_event = false)
    (htft : s.tft_serial.isSome = true)
    (hklip : s.klipper_serial.isSome = true) :
    writesOf (tft2klipper_iter s (ReadResult.ok b) w).2.1 =
      [Effect.writeCall Device.klipper (PyVal.bytes b)] ∧
    (tft2klipper_iter s (ReadResult.ok b) w).1 = s ∧
    (tft2klipper_iter s (ReadResult.ok b) w).2.2 = false ∧
    writesOf (klipper2tft_iter s (ReadResult.ok b) w).2.1 =
      [Effect.writeCall Device.tft (PyVal.bytes b)] ∧
    (klipper2tft_iter s (ReadResult.ok b) w).1 = s ∧
    (klipper2tft_iter s (ReadResult.ok b) w).2.2 = false := by
  unfold tft2klipper_iter klipper2tft_iter
  cases w <;> simp [hstop, htft, hklip, pyEq, writesOf]

/-- A concrete instance of relay_writes_record_verbatim: the record
"G1 followed by a newline" read in the sample Running state is forwarded
verbatim in both directions. -/
theorem relay_writes_record_verbatim_witness :
    writesOf (tft2klipper_iter sampleRunning (ReadResult.ok [71, 49, 10])
        WriteResult.ok).2.1 =
      [Effect.writeCall Device.klipper (PyVal.bytes [71, 49, 10])] ∧
    (tft2klipper_iter sampleRunning (ReadResult.ok [71, 49, 10])
        WriteResult.ok).1 = sampleRunning ∧
    (tft2klipper_iter sampleRunning (ReadResult.ok [71, 49, 10])
        WriteResult.ok).2.2 = false ∧
    writesOf (klipper2tft_iter sampleRunning (ReadResult.ok [71, 49, 10])
        WriteResult.ok).2.1 =
      [Effect.writeCall Device.tft (PyVal.bytes [71, 49, 10])] ∧
    (klipper2tft_iter sampleRunning (ReadResult.ok [71, 49, 10])
        WriteResult.ok).1 = sampleRunning ∧
    (klipper2tft_iter sampleRunning (ReadResult.ok [71, 49, 10])
        WriteResult.ok).2.2 = false :=
  relay_writes_record_verbatim sampleRunning [71, 49, 10] WriteResult.ok
    (by decide) (by decide) rfl rfl rfl

/-- C3: an iteration that observes the stop event set closes the handle of
the device its loop reads from when that handle is present, sets that handle
to None in every case (even when it was already absent), and breaks; and
composing handle_disconnect with one iteration of each loop leaves both
handles cleared. -/
theorem shutdown_closes_and_clears (s : BridgeState) (r r2 : ReadResult)
    (w w2 : WriteResult)
    (hstop : s.stop_event = true) :
    tft2klipper_iter s r w =
      ({ s with tft_serial := none },
       (if s.tft_serial.isSome then [Effect.close Device.tft] else []),
       true) ∧
    klipper2tft_iter s r w =
      ({ s with klipper_serial := none },
       (if s.klipper_serial.isSome then [Effect.close Device.klipper] else []),
       true) ∧
    (klipper2tft_iter (tft2klipper_iter (handle_disconnect s) r w).1 r2
        w2).1.tft_serial = none ∧
    (klipper2tft_iter (tft2klipper_iter (handle_disconnect s) r w).1 r2
        w2).1.klipper_serial = none := by
  unfold tft2klipper_iter klipper2tft_iter handle_disconnect
  simp [hstop]

/-- A concrete instance of shutdown_closes_and_clears: starting from the
sample Running state with the stop event set, both loops close their source
handle and break, and after a disconnect plus one iteration of each loop
both handles are None. -/
theorem shutdown_closes_and_clears_witness :
    tft2klipper_iter { sampleRunning with stop_event := true }
        (ReadResult.ok []) WriteResult.ok =
      ({ { sampleRunning with stop_event := true } with tft_serial := none },
       (if ({ sampleRunning with stop_event := true } :
             BridgeState).tft_serial.isSome
        then [Effect.close Device.tft] else []),
       true) ∧
    klipper2tft_iter { sampleRunning with stop_event := true }
        (ReadResult.ok []) WriteResult.ok =
      ({ { sampleRunning with stop_event := true } with klipper_serial := none },
       (if ({ sampleRunning with stop_event := true } :
             BridgeState).klipper_serial.isSome
        then [Effect.close Device.klipper] else []),
       true) ∧
    (klipper2tft_iter
        (tft2klipper_iter
          (handle_disconnect { sampleRunning with stop_event := true })
          (ReadResult.ok []) WriteResult.ok).1
        (ReadResult.ok []) WriteResult.ok).1.tft_serial = none ∧
    (klipper2tft_iter
        (tft2klipper_iter
          (handle_disconnect { sampleRunning with stop_event := true })
          (ReadResult.ok []) WriteResult.ok).1
        (ReadResult.ok []) WriteResult.ok).1.klipper_serial = none :=
  shutdown_closes_and_clears { sampleRunning with stop_event := true }
    (ReadResult.ok []) (ReadResult.ok []) WriteResult.ok WriteResult.ok rfl

/-- C4: with the stop event clear (shutdown not observed) and both handles
present, no iteration breaks whatever the devices do; a read error is logged
and, being treated as the empty text string, produces no write and leaves
the state unchanged; a write error leaves exactly the attempted write and
one log entry, the record is dropped, the state is unchanged and the loop
continues. The loop-body functions are total, so no error escapes to a
caller. -/
theorem loop_errors_nonfatal (s : BridgeState) (r : ReadResult)
    (w : WriteResult) (b : List Nat) (mr mw : String)
    (hstop : s.stop_event = false)
    (htft : s.tft_serial.isSome = true)
    (hklip : s.klipper_serial.isSome = true) :
    (tft2klipper_iter s r w).2.2 = false ∧
    (klipper2tft_iter s r w).2.2 = false ∧
    tft2klipper_iter s (ReadResult.err mr) w =
      (s, [Effect.log ("Failed to read from tft " ++ mr)], false) ∧
    klipper2tft_iter s (ReadResult.err mr) w =
      (s, [Effect.log ("Failed to read from klipper " ++ mr)], false) ∧
    tft2klipper_iter s (ReadResult.ok (b ++ [10])) (WriteResult.err mw) =
      (s, [Effect.writeCall Device.klipper (PyVal.bytes (b ++ [10])),
           Effect.log ("Failed to write to klipper " ++ mw)], false) ∧
    klipper2tft_iter s (ReadResult.ok (b ++ [10])) (WriteResult.err mw) =
      (s, [Effect.writeCall Device.tft (PyVal.bytes (b ++ [10])),
           Effect.log ("Failed to write to tft " ++ mw)], false) := by
  unfold tft2klipper_iter klipper2tft_iter
  cases r <;> cases w <;> simp [hstop, htft, hklip, pyEq]

/-- A concrete instance of loop_errors_nonfatal in the sample Running
state, with a read error message "boom" and a write error message "nack". -/
theorem loop_errors_nonfatal_witness :
    (tft2klipper_iter sampleRunning (ReadResult.err "boom")
        WriteResult.ok).2.2 = false ∧
    (klipper2tft_iter sampleRunning (ReadResult.err "boom")
        WriteResult.ok).2.2 = false ∧
    tft2klipper_iter sampleRunning (ReadResult.err "boom") WriteResult.ok =
      (sampleRunning, [Effect.log ("Failed to read from tft " ++ "boom")],
       false) ∧
    klipper2tft_iter sampleRunning (ReadResult.err "boom") WriteResult.ok =
      (sampleRunning, [Effect.log ("Failed to read from klipper " ++ "boom")],
       false) ∧
    tft2klipper_iter sampleRunning (ReadResult.ok ([77] ++ [10]))
        (WriteResult.err "nack") =
      (sampleRunning,
       [Effect.writeCall Device.klipper (PyVal.bytes ([77] ++ [10])),
        Effect.log ("Failed to write to klipper " ++ "nack")], false) ∧
    klipper2tft_iter sampleRunning (ReadResult.ok ([77] ++ [10]))
        (WriteResult.err "nack") =
      (sampleRunning,
       [Effect.writeCall Device.tft (PyVal.bytes ([77] ++ [10])),
        Effect.log ("Failed to write to tft " ++ "nack")], false) :=
  loop_errors_nonfatal sampleRunning (ReadResult.err "boom") WriteResult.ok
    [77] "boom" "nack" rfl rfl rfl

/-- C5 as stated is false: handle_ready does not clear the stop event
first. At a concrete Stopped state with both handles absent and both opens
succeeding, the ordered trace begins with the two open attempts; the clear
of the stop event comes only third, so the first step is not the clear the
claim requires. -/
theorem handle_ready_clear_not_first :
    (handle_ready sampleStopped OpenOutcome.ok OpenOutcome.ok).2 =
      [ReadyStep.openAttempt Device.tft, ReadyStep.openAttempt Device.klipper,
       ReadyStep.clearStop,
       ReadyStep.startThread Direction.tft2klipper,
       ReadyStep.startThread Direction.klipper2tft] ∧
    (handle_ready sampleStopped OpenOutcome.ok OpenOutcome.ok).2.head? ≠
      some ReadyStep.clearStop := by
  constructor
  · rfl
  · decide

/-- C5 amended: handle_ready first attempts to open each endpoint whose
handle is absent (logging any failure), then clears the stop event, then
starts exactly two relay loops, one per direction, in that order: its trace
is a prefix of open attempts and log messages followed by exactly the clear
step and the two thread starts, and the resulting state has the stop event
clear. -/
theorem handle_ready_step_order (s : BridgeState) (o1 o2 : OpenOutcome) :
    (handle_ready s o1 o2).1.stop_event = false ∧
    ∃ pre : List ReadyStep,
      (handle_ready s o1 o2).2 =
        pre ++ [ReadyStep.clearStop,
                ReadyStep.startThread Direction.tft2klipper,
                ReadyStep.startThread Direction.klipper2tft] ∧
      pre.all isPreStep = true := by
  constructor
  · simp [handle_ready]
  · unfold handle_ready
    by_cases h1 : s.tft_serial = none
    · by_cases h2 : s.klipper_serial = none
      · cases o1 with
        | ok =>
          cases o2 with
          | ok =>
            exact ⟨[ReadyStep.openAttempt Device.tft,
                    ReadyStep.openAttempt Device.klipper],
                   by simp [h1, h2], by simp [isPreStep]⟩
          | err m =>
            exact ⟨[ReadyStep.openAttempt Device.tft,
                    ReadyStep.openAttempt Device.klipper,
                    ReadyStep.logStep
                      ("Failed to establish klipper connection: " ++ m)],
                   by simp [h1, h2], by simp [isPreStep]⟩
        | err m =>
          cases o2 with
          | ok =>
            exact ⟨[ReadyStep.openAttempt Device.tft,
                    ReadyStep.logStep
                      ("Failed to establish tft connection: " ++ m),
                    ReadyStep.openAttempt Device.klipper],
                   by simp [h1, h2], by simp [isPreStep]⟩
          | err m2 =>
            exact ⟨[ReadyStep.openAttempt Device.tft,
                    ReadyStep.logStep
                      ("Failed to establish tft connection: " ++ m),
                    ReadyStep.openAttempt Device.klipper,
                    ReadyStep.logStep
                      ("Failed to establish klipper connection: " ++ m2)],
                   by simp [h1, h2], by simp [isPreStep]⟩
      · cases o1 with
        | ok =>
          exact ⟨[ReadyStep.openAttempt Device.tft],
                 by simp [h1, h2], by simp [isPreStep]⟩
        | err m =>
          exact ⟨[ReadyStep.openAttempt Device.tft,
                  ReadyStep.logStep
                    ("Failed to establish tft connection: " ++ m)],
                 by simp [h1, h2], by simp [isPreStep]⟩
    · by_cases h2 : s.klipper_serial = none
      · cases o2 with
        | ok =>
          exact ⟨[ReadyStep.openAttempt Device.klipper],
                 by simp [h1, h2], by simp [isPreStep]⟩
        | err m =>
          exact ⟨[ReadyStep.openAttempt Device.klipper,
                  ReadyStep.logStep
                    ("Failed to establish klipper connection: " ++ m)],
                 by simp [h1, h2], by simp [isPreStep]⟩
      · exact ⟨[], by simp [h1, h2], by simp [isPreStep]⟩

/-- C6, evaluated at the failing input: two consecutive ready signals from a
Running state with both handles present. The open-reuse half of the claim
holds (no open attempt is made and both handles are unchanged), but
handle_ready starts two threads unconditionally on every call, so the
combined trace of the two calls contains four thread starts: the second
ready spawns a duplicate pair of relay loops. -/
theorem double_ready_spawns_duplicate_loops :
    ((handle_ready sampleRunning OpenOutcome.ok OpenOutcome.ok).2 ++
      (handle_ready (handle_ready sampleRunning OpenOutcome.ok OpenOutcome.ok).1
        OpenOutcome.ok OpenOutcome.ok).2).countP isStart = 4 ∧
    ((handle_ready sampleRunning OpenOutcome.ok OpenOutcome.ok).2 ++
      (handle_ready (handle_ready sampleRunning OpenOutcome.ok OpenOutcome.ok).1
        OpenOutcome.ok OpenOutcome.ok).2).countP isOpenAttempt = 0 ∧
    (handle_ready (handle_ready sampleRunning OpenOutcome.ok OpenOutcome.ok).1
        OpenOutcome.ok OpenOutcome.ok).1.tft_serial =
      sampleRunning.tft_serial ∧
    (handle_ready (handle_ready sampleRunning OpenOutcome.ok OpenOutcome.ok).1
        OpenOutcome.ok OpenOutcome.ok).1.klipper_serial =
      sampleRunning.klipper_serial := by
  refine ⟨?_, ?_, ?_, ?_⟩ <;> decide

/-- C8: when the bridge handles a ready signal with an endpoint handle
absent and the open of that endpoint raising, handle_ready catches the
failure and leaves that handle None, logs the failure, attempts the open
exactly once (no retry), and still proceeds: the stop event is cleared and
both relay-loop threads are started. Shown for each endpoint, with the
other endpoint's open outcome arbitrary. -/
theorem open_failure_leaves_absent (s : BridgeState) (mt mk : String)
    (ot ok2 : OpenOutcome)
    (htft : s.tft_serial = none) (hklip : s.klipper_serial = none) :
    ((handle_ready s (OpenOutcome.err mt) ok2).1.tft_serial = none ∧
     ReadyStep.logStep ("Failed to establish tft connection: " ++ mt) ∈
       (handle_ready s (OpenOutcome.err mt) ok2).2 ∧
     (handle_ready s (OpenOutcome.err mt) ok2).2.countP
       (isOpenAttemptOn Device.tft) = 1 ∧
     ReadyStep.startThread Direction.tft2klipper ∈
       (handle_ready s (OpenOutcome.err mt) ok2).2 ∧
     ReadyStep.startThread Direction.klipper2tft ∈
       (handle_ready s (OpenOutcome.err mt) ok2).2 ∧
     (handle_ready s (OpenOutcome.err mt) ok2).1.stop_event = false) ∧
    ((handle_ready s ot (OpenOutcome.err mk)).1.klipper_serial = none ∧
     ReadyStep.logStep ("Failed to establish klipper connection: " ++ mk) ∈
       (handle_ready s ot (OpenOutcome.err mk)).2 ∧
     (handle_ready s ot (OpenOutcome.err mk)).2.countP
       (isOpenAttemptOn Device.klipper) = 1 ∧
     ReadyStep.startThread Direction.tft2klipper ∈
       (handle_ready s ot (OpenOutcome.err mk)).2 ∧
     ReadyStep.startThread Direction.klipper2tft ∈
       (handle_ready s ot (OpenOutcome.err mk)).2 ∧
     (handle_ready s ot (OpenOutcome.err mk)).1.stop_event = false) := by
  constructor
  · cases ok2 <;>
      simp [handle_ready, htft, hklip, isOpenAttemptOn, List.countP_cons]
  · cases ot <;>
      simp [handle_ready, htft, hklip, isOpenAttemptOn, List.countP_cons]

/-- A concrete instance of open_failure_leaves_absent at the sample Stopped
state, where opening the tft endpoint fails with "busy" while the klipper
open succeeds, and symmetrically the klipper open fails with "missing". -/
theorem open_failure_leaves_absent_witness :
    ((handle_ready sampleStopped (OpenOutcome.err "busy")
        OpenOutcome.ok).1.tft_serial = none ∧
     ReadyStep.logStep ("Failed to establish tft connection: " ++ "busy") ∈
       (handle_ready sampleStopped (OpenOutcome.err "busy") OpenOutcome.ok).2 ∧
     (handle_ready sampleStopped (OpenOutcome.err "busy")
        OpenOutcome.ok).2.countP (isOpenAttemptOn Device.tft) = 1 ∧
     ReadyStep.startThread Direction.tft2klipper ∈
       (handle_ready sampleStopped (OpenOutcome.err "busy") OpenOutcome.ok).2 ∧
     ReadyStep.startThread Direction.klipper2tft ∈
       (handle_ready sampleStopped (OpenOutcome.err "busy") OpenOutcome.ok).2 ∧
     (handle_ready sampleStopped (OpenOutcome.err "busy")
        OpenOutcome.ok).1.stop_event = false) ∧
    ((handle_ready sampleStopped OpenOutcome.ok
        (OpenOutcome.err "missing")).1.klipper_serial = none ∧
     ReadyStep.logStep ("Failed to establish klipper connection: " ++ "missing") ∈
       (handle_ready sampleStopped OpenOutcome.ok (OpenOutcome.err "missing")).2 ∧
     (handle_ready sampleStopped OpenOutcome.ok
        (OpenOutcome.err "missing")).2.countP
       (isOpenAttemptOn Device.klipper) = 1 ∧
     ReadyStep.startThread Direction.tft2klipper ∈
       (handle_ready sampleStopped OpenOutcome.ok (OpenOutcome.err "missing")).2 ∧
     ReadyStep.startThread Direction.klipper2tft ∈
       (handle_ready sampleStopped OpenOutcome.ok (OpenOutcome.err "missing")).2 ∧
     (handle_ready sampleStopped OpenOutcome.ok
        (OpenOutcome.err "missing")).1.stop_event = false) :=
  open_failure_leaves_absent sampleStopped "busy" "missing"
    OpenOutcome.ok OpenOutcome.ok rfl rfl

end TftBridge
